import Mathlib

/-!
Shallow embedding of `raspberry_pi_buttons.py`: a Raspberry Pi script that
forwards physical button presses to a Flask app over HTTP.

Clock readings (Python `time.time()`, seconds since the epoch) are modelled
as rationals.  Each clock read in the source is a separate input: the
callback reads `current_time` on entry, and `send_button_press` reads the
clock again when it builds the POST body.  The outcome of each HTTP call is
an environment input: a response carrying a status code, or a raised Python
exception.  Python functions that may raise are modelled with `Except`, and
an `except` clause is a pattern match on the raised exception.
-/

/-- GPIO pin for button 1 ("Choose Variant 1"). -/
def BUTTON_1_PIN : ℕ := 18

/-- GPIO pin for button 2 ("Choose Variant 2"). -/
def BUTTON_2_PIN : ℕ := 19

/-- Base URL of the Flask application (`FLASK_APP_URL`). -/
def FLASK_APP_URL : String := "http://144.178.100.238:65500"

/-- A Python exception.  `requestException` stands for
`requests.exceptions.RequestException` (the only class caught in
`send_button_press`); `keyboardInterrupt` for `KeyboardInterrupt`;
`otherExn` for any other exception. -/
inductive PyExn where
  | requestException (msg : String)
  | keyboardInterrupt
  | otherExn (msg : String)
deriving DecidableEq

/-- Outcome of one HTTP call, chosen by the environment: either the call
returns a response with a status code, or it raises an exception. -/
inductive HttpResult where
  | response (status_code : ℕ)
  | raise (e : PyExn)
deriving DecidableEq

/-- A JSON value as it occurs in the POST body: a Python int or float. -/
inductive JsonVal where
  | jint (n : ℤ)
  | jfloat (x : ℚ)
deriving DecidableEq

/-- An outbound `requests.post(url, json=data, timeout=...)` call. -/
structure PostRequest where
  url : String
  body : List (String × JsonVal)
  timeout : ℚ
deriving DecidableEq

/-- An outbound `requests.get(url, timeout=...)` call. -/
structure GetRequest where
  url : String
  timeout : ℚ
deriving DecidableEq

/-- The mutable fields of the `PhysicalButtonController` instance. -/
structure PhysicalButtonController where
  button_pressed : Bool
  last_press_time : ℚ
  debounce_time : ℚ
deriving DecidableEq

/-- `__init__` field assignments: `button_pressed = False`,
`last_press_time = 0`, `debounce_time = 0.3` (300 ms debounce). -/
def initController : PhysicalButtonController :=
  ⟨false, 0, 3/10⟩

/-- `send_button_press(button_number)`: builds the request to
`{FLASK_APP_URL}/physical-button-press` with body
`{'button': button_number, 'timestamp': time.time()}` and timeout 5, then
classifies the outcome.  `now` is the `time.time()` read inside the
function.  Returns the issued request together with either the printed log
lines (`Except.ok`) or an exception escaping the function (`Except.error`):
the `try/except` catches only `requests.exceptions.RequestException`. -/
def send_button_press (button_number : ℕ) (now : ℚ) (res : HttpResult) :
    PostRequest × Except PyExn (List String) :=
  let req : PostRequest :=
    ⟨FLASK_APP_URL ++ "/physical-button-press",
     [("button", JsonVal.jint (button_number : ℤ)), ("timestamp", JsonVal.jfloat now)],
     5⟩
  match res with
  | HttpResult.response code =>
      if code = 200 then
        (req, Except.ok ["Button " ++ toString button_number ++ " signal sent successfully"])
      else
        (req, Except.ok ["Send error: Status " ++ toString code])
  | HttpResult.raise (PyExn.requestException m) =>
      (req, Except.ok ["Connection error: " ++ m])
  | HttpResult.raise e =>
      (req, Except.error e)

/-- One accepted press as observed at the network boundary: the button
number, the `current_time` read by the edge callback that accepted it, and
the POST request issued for it. -/
structure Emission where
  button : ℕ
  edgeTime : ℚ
  req : PostRequest
deriving DecidableEq

/-- Result of one edge-callback invocation: the updated controller state,
the POST requests issued, the printed log lines, and any exception escaping
the callback. -/
structure CallbackResult where
  state : PhysicalButtonController
  emissions : List Emission
  logs : List String
  raised : Option PyExn
deriving DecidableEq

/-- Common body of `button_1_callback` / `button_2_callback` (the two are
identical up to the button number `n`): read `current_time = time.time()`;
if `current_time - last_press_time > debounce_time`, set
`last_press_time = current_time`, print the press line, and call
`send_button_press(n)`; otherwise do nothing.  `sendTime` is the
`time.time()` read inside `send_button_press`; `res` the POST outcome. -/
def button_callback (n : ℕ) (current_time sendTime : ℚ) (res : HttpResult)
    (s : PhysicalButtonController) : CallbackResult :=
  if current_time - s.last_press_time > s.debounce_time then
    match send_button_press n sendTime res with
    | (req, Except.ok slog) =>
        ⟨⟨s.button_pressed, current_time, s.debounce_time⟩,
         [⟨n, current_time, req⟩],
         ("Button " ++ toString n ++ " pressed - Choose Variant " ++ toString n) :: slog,
         none⟩
    | (req, Except.error e) =>
        ⟨⟨s.button_pressed, current_time, s.debounce_time⟩,
         [⟨n, current_time, req⟩],
         ["Button " ++ toString n ++ " pressed - Choose Variant " ++ toString n],
         some e⟩
  else
    ⟨s, [], [], none⟩

/-- `button_1_callback` ("Choose Variant 1"). -/
def button_1_callback (current_time sendTime : ℚ) (res : HttpResult)
    (s : PhysicalButtonController) : CallbackResult :=
  button_callback 1 current_time sendTime res s

/-- `button_2_callback` ("Choose Variant 2"). -/
def button_2_callback (current_time sendTime : ℚ) (res : HttpResult)
    (s : PhysicalButtonController) : CallbackResult :=
  button_callback 2 current_time sendTime res s

/-- The two wired input channels (GPIO 18 and GPIO 19). -/
inductive Channel where
  | ch1
  | ch2
deriving DecidableEq

/-- The button number a channel reports. -/
def Channel.number : Channel → ℕ
  | Channel.ch1 => 1
  | Channel.ch2 => 2

/-- One rising edge delivered to the bridge: which channel fired, the
`time.time()` read at callback entry, the `time.time()` read inside
`send_button_press` (used only if the edge is accepted), and the outcome of
the POST (used only if the edge is accepted). -/
structure EdgeInput where
  channel : Channel
  time : ℚ
  sendTime : ℚ
  res : HttpResult
deriving DecidableEq

/-- Dispatch an edge to the callback registered for its channel. -/
def EdgeInput.dispatch (e : EdgeInput) (s : PhysicalButtonController) : CallbackResult :=
  match e.channel with
  | Channel.ch1 => button_1_callback e.time e.sendTime e.res s
  | Channel.ch2 => button_2_callback e.time e.sendTime e.res s

/-- Fold step: run one edge callback and append its emissions. -/
def stepEdge (acc : PhysicalButtonController × List Emission) (e : EdgeInput) :
    PhysicalButtonController × List Emission :=
  ((e.dispatch acc.1).state, acc.2 ++ (e.dispatch acc.1).emissions)

/-- Run a sequence of edge callbacks from state `s`, collecting the POST
requests issued (the callbacks run sequentially on the GPIO event thread). -/
def processEdges (s : PhysicalButtonController) (es : List EdgeInput) :
    PhysicalButtonController × List Emission :=
  es.foldl stepEdge (s, [])

/-- `check_connection`: issue `requests.get(f"{FLASK_APP_URL}/health",
timeout=5)` and classify the outcome.  The bare `except:` catches every
exception, so the `Except` component is `ok` for every outcome. -/
def check_connection (res : HttpResult) : GetRequest × Except PyExn (List String) :=
  let req : GetRequest := ⟨FLASK_APP_URL ++ "/health", 5⟩
  match res with
  | HttpResult.response code =>
      if code = 200 then
        (req, Except.ok ["✓ Connection with Flask app established"])
      else
        (req, Except.ok ["⚠ Flask app reachable but with issues"])
  | HttpResult.raise _ =>
      (req, Except.ok ["✗ Unable to connect to Flask app",
                       "Verify that the app is running on " ++ FLASK_APP_URL])

/-- The three lines `run` prints before its `try` block. -/
def run_banner : List String :=
  ["Physical button controller started...",
   "Connecting to: " ++ FLASK_APP_URL,
   "Press Ctrl+C to terminate"]

/-- Observable trace of one execution of `run`. -/
structure RunTrace where
  logs : List String
  healthRequests : List GetRequest
  enteredLoop : Bool
  sleeps : ℕ
  cleanup_count : ℕ
  raised : Option PyExn
deriving DecidableEq

/-- `run`: print the banner, then `try: check_connection(); while True:
sleep(0.1)` with `except KeyboardInterrupt` printing the shutdown line and
`finally` calling `cleanup()`.  The idle loop only ends when the
environment raises `KeyboardInterrupt` in the sleep, here after
`interruptAfter` completed sleeps; `healthRes` is the outcome of the GET
issued by `check_connection`.  The `finally` clause runs on every exit
path, so `cleanup_count = 1` in every branch; an exception other than
`KeyboardInterrupt` escaping the `try` body would still propagate after
`cleanup()` (that branch is unreachable because `check_connection` never
raises). -/
def run (healthRes : HttpResult) (interruptAfter : ℕ) : RunTrace :=
  match check_connection healthRes with
  | (req, Except.ok clog) =>
      ⟨run_banner ++ clog ++ ["\nShutting down..."], [req], true, interruptAfter, 1, none⟩
  | (req, Except.error PyExn.keyboardInterrupt) =>
      ⟨run_banner ++ ["\nShutting down..."], [req], false, 0, 1, none⟩
  | (req, Except.error e) =>
      ⟨run_banner, [req], false, 0, 1, some e⟩

/-- Observable trace of the whole process (`__main__`). -/
structure MainTrace where
  setupLogs : List String
  trace : Option RunTrace
  cleanup_count : ℕ
  raised : Option PyExn
deriving DecidableEq

/-- `__main__`: `controller = PhysicalButtonController(); controller.run()`.
`setup` is the outcome of `setup_gpio()` inside `__init__`: if a GPIO call
raises, the exception propagates out of the constructor and `run` is never
called — there is no `try/finally` around the constructor, so `cleanup()`
does not run on that path. -/
def pyMain (setup : Except PyExn Unit) (healthRes : HttpResult) (interruptAfter : ℕ) :
    MainTrace :=
  match setup with
  | Except.error e => ⟨[], none, 0, some e⟩
  | Except.ok _ =>
      ⟨["GPIO configured. Button 1: GPIO 18, Button 2: GPIO 19"],
       some (run healthRes interruptAfter),
       (run healthRes interruptAfter).cleanup_count,
       (run healthRes interruptAfter).raised⟩

/-! ## Helper lemmas -/

/-- The POST request built by `send_button_press` is the same for every
outcome of the call. -/
lemma send_button_press_fst (n : ℕ) (now : ℚ) (res : HttpResult) :
    (send_button_press n now res).1 =
      ⟨FLASK_APP_URL ++ "/physical-button-press",
       [("button", JsonVal.jint (n : ℤ)), ("timestamp", JsonVal.jfloat now)], 5⟩ := by
  cases res with
  | response code => by_cases h : code = 200 <;> simp [send_button_press, h]
  | raise e => cases e <;> rfl

/-- An edge that passes the debounce check updates `last_press_time`. -/
lemma button_callback_state_pos (n : ℕ) (t st : ℚ) (res : HttpResult)
    (s : PhysicalButtonController) (h : t - s.last_press_time > s.debounce_time) :
    (button_callback n t st res s).state =
      ⟨s.button_pressed, t, s.debounce_time⟩ := by
  unfold button_callback
  rw [if_pos h]
  rcases hs : send_button_press n st res with ⟨req, out⟩
  cases out <;> simp [hs]

/-- An edge that passes the debounce check issues exactly the one POST
request built by `send_button_press`. -/
lemma button_callback_emissions_pos (n : ℕ) (t st : ℚ) (res : HttpResult)
    (s : PhysicalButtonController) (h : t - s.last_press_time > s.debounce_time) :
    (button_callback n t st res s).emissions =
      [⟨n, t, (send_button_press n st res).1⟩] := by
  unfold button_callback
  rw [if_pos h]
  rcases hs : send_button_press n st res with ⟨req, out⟩
  cases out <;> simp [hs]

/-- An edge that fails the debounce check is a no-op. -/
lemma button_callback_neg (n : ℕ) (t st : ℚ) (res : HttpResult)
    (s : PhysicalButtonController) (h : ¬(t - s.last_press_time > s.debounce_time)) :
    button_callback n t st res s = ⟨s, [], [], none⟩ := by
  unfold button_callback
  rw [if_neg h]

/-- State change of a dispatched accepted edge. -/
lemma dispatch_state_pos (e : EdgeInput) (s : PhysicalButtonController)
    (h : e.time - s.last_press_time > s.debounce_time) :
    (e.dispatch s).state = ⟨s.button_pressed, e.time, s.debounce_time⟩ := by
  cases hch : e.channel <;>
    simp [EdgeInput.dispatch, hch, button_1_callback, button_2_callback,
      button_callback_state_pos _ _ _ _ _ h]

/-- Emissions of a dispatched accepted edge. -/
lemma dispatch_emissions_pos (e : EdgeInput) (s : PhysicalButtonController)
    (h : e.time - s.last_press_time > s.debounce_time) :
    (e.dispatch s).emissions =
      [⟨e.channel.number, e.time,
        (send_button_press e.channel.number e.sendTime e.res).1⟩] := by
  cases hch : e.channel <;>
    simp [EdgeInput.dispatch, hch, button_1_callback, button_2_callback, Channel.number,
      button_callback_emissions_pos _ _ _ _ _ h]

/-- A dispatched suppressed edge is a no-op. -/
lemma dispatch_neg (e : EdgeInput) (s : PhysicalButtonController)
    (h : ¬(e.time - s.last_press_time > s.debounce_time)) :
    e.dispatch s = ⟨s, [], [], none⟩ := by
  cases hch : e.channel <;>
    simp [EdgeInput.dispatch, hch, button_1_callback, button_2_callback,
      button_callback_neg _ _ _ _ _ h]

/-- `processEdges` on a snoc list runs one more callback at the end. -/
lemma processEdges_append (s : PhysicalButtonController) (es : List EdgeInput)
    (e : EdgeInput) :
    processEdges s (es ++ [e]) = stepEdge (processEdges s es) e := by
  simp [processEdges, List.foldl_append]

/-- No callback ever writes `debounce_time`. -/
lemma foldl_debounce (es : List EdgeInput) (acc : PhysicalButtonController × List Emission) :
    (es.foldl stepEdge acc).1.debounce_time = acc.1.debounce_time := by
  induction es generalizing acc with
  | nil => rfl
  | cons e es ih =>
      rw [List.foldl_cons, ih]
      by_cases h : e.time - acc.1.last_press_time > acc.1.debounce_time
      · simp [stepEdge, dispatch_state_pos _ _ h]
      · simp [stepEdge, dispatch_neg _ _ h]

/-- `debounce_time` stays at its initial value along any edge sequence. -/
lemma processEdges_debounce (s : PhysicalButtonController) (es : List EdgeInput) :
    (processEdges s es).1.debounce_time = s.debounce_time :=
  foldl_debounce es (s, [])

/-- Along any run from a state with the 300 ms debounce, the `current_time`
values of accepted edges are pairwise separated by more than 300 ms. -/
lemma foldl_gap_invariant (es : List EdgeInput)
    (acc : PhysicalButtonController × List Emission)
    (hdeb : acc.1.debounce_time = 3/10)
    (hpw : acc.2.Pairwise (fun a b => b.edgeTime - a.edgeTime > 3/10))
    (hub : ∀ a ∈ acc.2, a.edgeTime ≤ acc.1.last_press_time) :
    (es.foldl stepEdge acc).2.Pairwise (fun a b => b.edgeTime - a.edgeTime > 3/10) := by
  induction es generalizing acc with
  | nil => exact hpw
  | cons e es ih =>
      rw [List.foldl_cons]
      by_cases h : e.time - acc.1.last_press_time > acc.1.debounce_time
      · apply ih
        · simp [stepEdge, dispatch_state_pos _ _ h, hdeb]
        · simp only [stepEdge, dispatch_emissions_pos _ _ h]
          rw [List.pairwise_append]
          refine ⟨hpw, List.pairwise_singleton _ _, ?_⟩
          intro a ha b hb
          simp only [List.mem_singleton] at hb
          subst hb
          have hub' := hub a ha
          rw [hdeb] at h
          simp only
          linarith
        · intro a ha
          simp only [stepEdge, dispatch_state_pos _ _ h,
            dispatch_emissions_pos _ _ h, List.mem_append, List.mem_singleton] at ha ⊢
          rw [hdeb] at h
          rcases ha with ha | ha
          · have := hub a ha
            linarith
          · subst ha
            simp
      · have hstep : stepEdge acc e = acc := by
          simp [stepEdge, dispatch_neg _ _ h]
        rw [hstep]
        exact ih acc hdeb hpw hub

/-- The bare `except:` in `check_connection` means the function returns
normally (with the health request issued) for every outcome of the GET. -/
lemma check_connection_ok (res : HttpResult) :
    ∃ l, check_connection res = (⟨FLASK_APP_URL ++ "/health", 5⟩, Except.ok l) := by
  cases res with
  | response code =>
      by_cases h : code = 200
      · exact ⟨["✓ Connection with Flask app established"], by simp [check_connection, h]⟩
      · exact ⟨["⚠ Flask app reachable but with issues"], by simp [check_connection, h]⟩
  | raise e => exact ⟨_, rfl⟩

/-! ## Claims -/

/-- C1 (amended): for every sequence of edge callbacks on either channel, an
edge whose `current_time` is within `≤ 300 ms` of the most recently accepted
edge (held in `last_press_time`) is suppressed — no outbound HTTP call is
made and `last_press_time` is unchanged — and an edge spaced strictly more
than 300 ms after the most recently accepted edge is accepted:
`last_press_time` is updated to the edge time and exactly one emission
follows.  (The claim's `≥ 300 ms` boundary is wrong: the code uses a strict
`>` comparison, so an edge at exactly 300 ms is suppressed; see the
counterexample.) -/
theorem c1_debounce_policy (es : List EdgeInput) (e : EdgeInput) :
    (e.time - (processEdges initController es).1.last_press_time ≤ 3/10 →
      (processEdges initController (es ++ [e])).1 = (processEdges initController es).1 ∧
      (processEdges initController (es ++ [e])).2 = (processEdges initController es).2) ∧
    (e.time - (processEdges initController es).1.last_press_time > 3/10 →
      (processEdges initController (es ++ [e])).1.last_press_time = e.time ∧
      (processEdges initController (es ++ [e])).2 =
        (processEdges initController es).2 ++
          [⟨e.channel.number, e.time,
            (send_button_press e.channel.number e.sendTime e.res).1⟩]) := by
  have hdeb : (processEdges initController es).1.debounce_time = 3/10 :=
    processEdges_debounce _ _
  rw [processEdges_append]
  constructor
  · intro h
    have hneg : ¬(e.time - (processEdges initController es).1.last_press_time >
        (processEdges initController es).1.debounce_time) := by
      rw [hdeb]
      linarith
    simp [stepEdge, dispatch_neg _ _ hneg]
  · intro h
    have hpos : e.time - (processEdges initController es).1.last_press_time >
        (processEdges initController es).1.debounce_time := by
      rw [hdeb]
      exact h
    simp [stepEdge, dispatch_state_pos _ _ hpos, dispatch_emissions_pos _ _ hpos]

/-- C1 counterexample: an edge at exactly 300 ms after the most recently
accepted time (here the initial `last_press_time = 0`) satisfies the claim's
"spaced `≥ 300 ms`" precondition, yet the code suppresses it: no POST is
issued and the state is unchanged. -/
theorem c1_counterexample :
    (3/10 : ℚ) - initController.last_press_time ≥ 3/10 ∧
    (processEdges initController [⟨Channel.ch1, 3/10, 3/10, HttpResult.response 200⟩]).2 = [] ∧
    (processEdges initController [⟨Channel.ch1, 3/10, 3/10, HttpResult.response 200⟩]).1 =
      initController := by
  norm_num [processEdges, stepEdge, EdgeInput.dispatch, button_1_callback, button_callback,
    initController]

/-- C1 witness: a first edge at time 1 is accepted; a second edge 100 ms
later is suppressed. -/
theorem c1_debounce_policy_witness :
    ((1 : ℚ) - (processEdges initController []).1.last_press_time > 3/10) ∧
    ((11 : ℚ)/10 - (processEdges initController
        [⟨Channel.ch1, 1, 1, HttpResult.response 200⟩]).1.last_press_time ≤ 3/10) ∧
    (processEdges initController
        [⟨Channel.ch1, 1, 1, HttpResult.response 200⟩]).1.last_press_time = 1 ∧
    (processEdges initController
        [⟨Channel.ch1, 1, 1, HttpResult.response 200⟩,
         ⟨Channel.ch2, 11/10, 11/10, HttpResult.response 200⟩]).2 =
      (processEdges initController [⟨Channel.ch1, 1, 1, HttpResult.response 200⟩]).2 := by
  have h1 : (1 : ℚ) - (processEdges initController []).1.last_press_time > 3/10 := by
    norm_num [processEdges, initController]
  have h2 : (11 : ℚ)/10 - (processEdges initController
      [⟨Channel.ch1, 1, 1, HttpResult.response 200⟩]).1.last_press_time ≤ 3/10 := by
    norm_num [processEdges, stepEdge, EdgeInput.dispatch, button_1_callback, button_callback,
      send_button_press, initController]
  refine ⟨h1, h2, ?_, ?_⟩
  · exact ((c1_debounce_policy [] ⟨Channel.ch1, 1, 1, HttpResult.response 200⟩).2 h1).1
  · exact ((c1_debounce_policy [⟨Channel.ch1, 1, 1, HttpResult.response 200⟩]
      ⟨Channel.ch2, 11/10, 11/10, HttpResult.response 200⟩).1 h2).2

/-- C2: for every accepted press, the outcome of the single POST is
classified into exactly three cases — status 200 logs success, any other
status logs a delivery error carrying the status code, and a transport-level
exception (`requests.exceptions.RequestException`) is caught and logged — in
no case does an exception propagate out of `send_button_press` back to the
edge callback (`raised = none`), and in no case is a retry performed
(exactly one request is issued). -/
theorem c2_send_classification (s : PhysicalButtonController) (n : ℕ) (t st : ℚ)
    (code : ℕ) (m : String) (hacc : t - s.last_press_time > s.debounce_time) :
    ((button_callback n t st (HttpResult.response 200) s).raised = none ∧
     (button_callback n t st (HttpResult.response 200) s).emissions.length = 1 ∧
     (button_callback n t st (HttpResult.response 200) s).logs =
       ["Button " ++ toString n ++ " pressed - Choose Variant " ++ toString n,
        "Button " ++ toString n ++ " signal sent successfully"]) ∧
    (code ≠ 200 →
     (button_callback n t st (HttpResult.response code) s).raised = none ∧
     (button_callback n t st (HttpResult.response code) s).emissions.length = 1 ∧
     (button_callback n t st (HttpResult.response code) s).logs =
       ["Button " ++ toString n ++ " pressed - Choose Variant " ++ toString n,
        "Send error: Status " ++ toString code]) ∧
    ((button_callback n t st (HttpResult.raise (PyExn.requestException m)) s).raised = none ∧
     (button_callback n t st (HttpResult.raise (PyExn.requestException m)) s).emissions.length = 1 ∧
     (button_callback n t st (HttpResult.raise (PyExn.requestException m)) s).logs =
       ["Button " ++ toString n ++ " pressed - Choose Variant " ++ toString n,
        "Connection error: " ++ m]) := by
  refine ⟨?_, fun hc => ?_, ?_⟩ <;>
    simp [button_callback, hacc, send_button_press, *]

/-- C2 witness: an accepted press whose POST returns status 404 raises
nothing out of the callback. -/
theorem c2_send_classification_witness :
    ((1 : ℚ) - initController.last_press_time > initController.debounce_time) ∧
    (404 ≠ 200) ∧
    (button_callback 1 1 1 (HttpResult.response 404) initController).raised = none := by
  have hacc : (1 : ℚ) - initController.last_press_time > initController.debounce_time := by
    norm_num [initController]
  exact ⟨hacc, by decide,
    ((c2_send_classification initController 1 1 1 404 "boom" hacc).2.1 (by decide)).1⟩

/-- C3: a press on channel 1 accepted from state `s`, followed within less
than 300 ms by a press on channel 2, produces exactly one outbound event,
and it carries button identifier 1. -/
theorem c3_cross_channel (s : PhysicalButtonController) (t1 st1 t2 st2 : ℚ)
    (r1 r2 : HttpResult) (hdeb : s.debounce_time = 3/10)
    (h1 : t1 - s.last_press_time > 3/10) (h2 : t2 - t1 < 3/10) :
    (processEdges s [⟨Channel.ch1, t1, st1, r1⟩, ⟨Channel.ch2, t2, st2, r2⟩]).2 =
      [⟨1, t1, (send_button_press 1 st1 r1).1⟩] := by
  have hp1 : (⟨Channel.ch1, t1, st1, r1⟩ : EdgeInput).time -
      (s, ([] : List Emission)).1.last_press_time >
      (s, ([] : List Emission)).1.debounce_time := by
    simpa [hdeb] using h1
  have hstep1 : stepEdge (s, []) ⟨Channel.ch1, t1, st1, r1⟩ =
      (⟨s.button_pressed, t1, s.debounce_time⟩,
       [⟨1, t1, (send_button_press 1 st1 r1).1⟩]) := by
    simp [stepEdge, dispatch_state_pos _ _ hp1, dispatch_emissions_pos _ _ hp1, Channel.number]
  have hp2 : ¬((⟨Channel.ch2, t2, st2, r2⟩ : EdgeInput).time -
      (⟨s.button_pressed, t1, s.debounce_time⟩ : PhysicalButtonController).last_press_time >
      (⟨s.button_pressed, t1, s.debounce_time⟩ : PhysicalButtonController).debounce_time) := by
    simp only [hdeb]
    simp only [not_lt]
    show t2 - t1 ≤ 3/10
    linarith
  have hstep2 : stepEdge
      (⟨s.button_pressed, t1, s.debounce_time⟩,
       [⟨1, t1, (send_button_press 1 st1 r1).1⟩]) ⟨Channel.ch2, t2, st2, r2⟩ =
      (⟨s.button_pressed, t1, s.debounce_time⟩,
       [⟨1, t1, (send_button_press 1 st1 r1).1⟩]) := by
    simp [stepEdge, dispatch_neg _ _ hp2]
  show (List.foldl stepEdge (s, []) _).2 = _
  rw [List.foldl_cons, hstep1, List.foldl_cons, hstep2, List.foldl_nil]

/-- C3 witness: presses at times 1 (channel 1) and 1.2 (channel 2). -/
theorem c3_cross_channel_witness :
    initController.debounce_time = 3/10 ∧
    ((1 : ℚ) - initController.last_press_time > 3/10) ∧
    ((12 : ℚ)/10 - 1 < 3/10) ∧
    (processEdges initController
        [⟨Channel.ch1, 1, 1, HttpResult.response 200⟩,
         ⟨Channel.ch2, 12/10, 12/10, HttpResult.response 200⟩]).2 =
      [⟨1, 1, (send_button_press 1 1 (HttpResult.response 200)).1⟩] := by
  refine ⟨rfl, by norm_num [initController], by norm_num, ?_⟩
  exact c3_cross_channel initController 1 1 (12/10) (12/10)
    (HttpResult.response 200) (HttpResult.response 200) rfl
    (by norm_num [initController]) (by norm_num)

/-- C4 (amended): from the initial state (`last_press_time` at its sentinel
value 0), an edge callback on either channel passes the debounce check and
emits whenever its wall-clock time exceeds the 300 ms threshold — i.e. the
clock reads more than 0.3 seconds since the epoch, which holds for any
process started after the epoch.  (The claim's "regardless of elapsed
wall-clock time" is wrong as stated: `now - 0 > 0.3` fails for an edge
whose clock reading is at most 0.3; see the counterexample.) -/
theorem c4_first_edge (e : EdgeInput) (h : e.time > 3/10) :
    (e.dispatch initController).state.last_press_time = e.time ∧
    (e.dispatch initController).emissions.length = 1 := by
  have hp : e.time - initController.last_press_time > initController.debounce_time := by
    simpa [initController] using h
  rw [dispatch_state_pos _ _ hp, dispatch_emissions_pos _ _ hp]
  simp

/-- C4 counterexample: from the initial state an edge whose clock reading is
0.1 (seconds since epoch) fails the debounce check `0.1 - 0 > 0.3`: the
callback emits nothing and leaves the state unchanged, contradicting "any
edge callback passes the debounce check and emits". -/
theorem c4_counterexample :
    (button_1_callback (1/10) (1/10) (HttpResult.response 200) initController).emissions = [] ∧
    (button_1_callback (1/10) (1/10) (HttpResult.response 200) initController).state =
      initController := by
  norm_num [button_1_callback, button_callback, initController]

/-- C4 witness: an edge at clock reading 1 is accepted from the initial
state. -/
theorem c4_first_edge_witness :
    ((⟨Channel.ch1, 1, 1, HttpResult.response 200⟩ : EdgeInput).time > 3/10) ∧
    ((⟨Channel.ch1, 1, 1, HttpResult.response 200⟩ : EdgeInput).dispatch
      initController).emissions.length = 1 :=
  ⟨by norm_num,
   (c4_first_edge ⟨Channel.ch1, 1, 1, HttpResult.response 200⟩ (by norm_num)).2⟩

/-- C5: every accepted press on a channel produces exactly one POST to
`{FLASK_APP_URL}/physical-button-press` with timeout 5 and a JSON body
holding exactly the keys `button` (the channel's number, 1 or 2) and
`timestamp` (the clock value read inside `send_button_press`, which is
within the sampling tolerance `tol` of the edge's wall-clock time). -/
theorem c5_emission_shape (s : PhysicalButtonController) (e : EdgeInput) (tol : ℚ)
    (hacc : e.time - s.last_press_time > s.debounce_time)
    (hclose : |e.sendTime - e.time| ≤ tol) :
    (e.dispatch s).emissions =
      [⟨e.channel.number, e.time,
        ⟨FLASK_APP_URL ++ "/physical-button-press",
         [("button", JsonVal.jint (e.channel.number : ℤ)),
          ("timestamp", JsonVal.jfloat e.sendTime)], 5⟩⟩] ∧
    (e.channel.number = 1 ∨ e.channel.number = 2) ∧
    (∀ em ∈ (e.dispatch s).emissions, ∀ x : ℚ,
      ("timestamp", JsonVal.jfloat x) ∈ em.req.body → |x - e.time| ≤ tol) := by
  have h1 := dispatch_emissions_pos e s hacc
  rw [send_button_press_fst] at h1
  refine ⟨h1, by cases e.channel <;> simp [Channel.number], ?_⟩
  intro em hem x hx
  rw [h1] at hem
  simp only [List.mem_singleton] at hem
  subst hem
  simp only [List.mem_cons, List.mem_singleton, Prod.mk.injEq] at hx
  rcases hx with ⟨hk, _⟩ | ⟨_, hv⟩ | hx
  · simp at hk
  · obtain rfl : x = e.sendTime := by simpa using hv
    exact hclose
  · simp at hx

/-- C5 witness: an accepted press on channel 1 at time 1, with the send-time
clock read equal to the edge time (tolerance 0). -/
theorem c5_emission_shape_witness :
    ((⟨Channel.ch1, 1, 1, HttpResult.response 200⟩ : EdgeInput).time -
        initController.last_press_time > initController.debounce_time) ∧
    (|(1 : ℚ) - 1| ≤ 0) ∧
    ((⟨Channel.ch1, 1, 1, HttpResult.response 200⟩ : EdgeInput).dispatch
        initController).emissions =
      [⟨1, 1,
        ⟨FLASK_APP_URL ++ "/physical-button-press",
         [("button", JsonVal.jint 1), ("timestamp", JsonVal.jfloat 1)], 5⟩⟩] := by
  refine ⟨by norm_num [initController], by norm_num, ?_⟩
  have h := (c5_emission_shape initController ⟨Channel.ch1, 1, 1, HttpResult.response 200⟩ 0
    (by norm_num [initController]) (by norm_num)).1
  simpa [Channel.number] using h

/-- C6: for every health-check outcome and however many idle-loop sleeps
pass before the `KeyboardInterrupt` arrives, `run` exits the loop, invokes
the GPIO teardown exactly once (via `finally`), and returns normally.  -/
theorem c6_cleanup_once (res : HttpResult) (n : ℕ) :
    (run res n).cleanup_count = 1 ∧ (run res n).enteredLoop = true ∧
    (run res n).raised = none := by
  obtain ⟨l, hl⟩ := check_connection_ok res
  simp [run, hl]

/-- C7: `check_connection` issues one GET to `{FLASK_APP_URL}/health` with
timeout 5 for every outcome, classifies the outcome into exactly three
logged cases (200 = healthy, other status = reachable but unhealthy, any
exception = unreachable), `run` performs it exactly once, and `run`
proceeds to its idle loop regardless of the outcome. -/
theorem c7_health_check (code : ℕ) (e : PyExn) (res : HttpResult) (n : ℕ)
    (hc : code ≠ 200) :
    (check_connection res).1 = ⟨FLASK_APP_URL ++ "/health", 5⟩ ∧
    (check_connection (HttpResult.response 200)).2 =
      Except.ok ["✓ Connection with Flask app established"] ∧
    (check_connection (HttpResult.response code)).2 =
      Except.ok ["⚠ Flask app reachable but with issues"] ∧
    (check_connection (HttpResult.raise e)).2 =
      Except.ok ["✗ Unable to connect to Flask app",
                 "Verify that the app is running on " ++ FLASK_APP_URL] ∧
    (run res n).healthRequests = [⟨FLASK_APP_URL ++ "/health", 5⟩] ∧
    (run res n).enteredLoop = true := by
  obtain ⟨l, hl⟩ := check_connection_ok res
  refine ⟨by rw [hl], by simp [check_connection], by simp [check_connection, hc],
    rfl, ?_, ?_⟩ <;> simp [run, hl]

/-- C7 witness: a health check returning status 503 is logged as reachable
but unhealthy. -/
theorem c7_health_check_witness :
    (503 ≠ 200) ∧
    (check_connection (HttpResult.response 503)).2 =
      Except.ok ["⚠ Flask app reachable but with issues"] :=
  ⟨by decide,
   (c7_health_check 503 PyExn.keyboardInterrupt (HttpResult.response 200) 0
     (by decide)).2.2.1⟩

/-- C8 (amended): a hardware pin configuration failure during setup is
fatal — the exception propagates out of `__init__` and terminates the
process before `run` starts — but this termination path does NOT route
through cleanup: `__main__` has no `try/finally`, so `GPIO.cleanup()` is
never invoked on it. -/
theorem c8_setup_failure (e : PyExn) (res : HttpResult) (n : ℕ) :
    (pyMain (Except.error e) res n).raised = some e ∧
    (pyMain (Except.error e) res n).trace = none ∧
    (pyMain (Except.error e) res n).cleanup_count = 0 :=
  ⟨rfl, rfl, rfl⟩

/-- C8 counterexample: when `setup_gpio` raises, the exception propagates
and `run` never starts (as the claim says), but the teardown count is 0 —
cleanup does not run before exit, contradicting the claim's "this
termination path still routes through cleanup". -/
theorem c8_counterexample :
    (pyMain (Except.error (PyExn.otherExn "GPIO setup failed"))
        (HttpResult.response 200) 0).raised = some (PyExn.otherExn "GPIO setup failed") ∧
    (pyMain (Except.error (PyExn.otherExn "GPIO setup failed"))
        (HttpResult.response 200) 0).trace = none ∧
    (pyMain (Except.error (PyExn.otherExn "GPIO setup failed"))
        (HttpResult.response 200) 0).cleanup_count = 0 :=
  ⟨rfl, rfl, rfl⟩

/-- C9 (amended): for any two accepted presses in one run (in particular two
from the same channel), the edge times tested by the debounce filter differ
by more than 300 ms.  The claim's statement about the timestamps carried in
the POST bodies is wrong: those are fresh `time.time()` reads taken inside
`send_button_press`, and two of them can differ by 300 ms or less; see the
counterexample. -/
theorem c9_edge_time_gap (es : List EdgeInput) :
    (processEdges initController es).2.Pairwise
      (fun a b => b.edgeTime - a.edgeTime > 3/10) := by
  exact foldl_gap_invariant es (initController, []) rfl (by simp) (by simp)

/-- C9 counterexample: channel-1 edges at clock times 1 and 1.301 (separated
by 301 ms, both accepted), whose POST bodies are built 2 ms resp. 0.5 ms
later (all four clock reads monotone): the two emitted timestamps are 1.002
and 1.3015, which differ by 0.2995 ≤ 0.3, contradicting the claim for the
body timestamps. -/
theorem c9_counterexample :
    ((1 : ℚ) ≤ 501/500 ∧ (501 : ℚ)/500 ≤ 1301/1000 ∧ (1301 : ℚ)/1000 ≤ 2603/2000) ∧
    ((processEdges initController
        [⟨Channel.ch1, 1, 501/500, HttpResult.response 200⟩,
         ⟨Channel.ch1, 1301/1000, 2603/2000, HttpResult.response 200⟩]).2.map
          (fun a => a.button) = [1, 1]) ∧
    ((processEdges initController
        [⟨Channel.ch1, 1, 501/500, HttpResult.response 200⟩,
         ⟨Channel.ch1, 1301/1000, 2603/2000, HttpResult.response 200⟩]).2.map
          (fun a => a.req.body) =
      [[("button", JsonVal.jint 1), ("timestamp", JsonVal.jfloat (501/500))],
       [("button", JsonVal.jint 1), ("timestamp", JsonVal.jfloat (2603/2000))]]) ∧
    ¬((2603 : ℚ)/2000 - 501/500 > 3/10) := by
  norm_num [processEdges, stepEdge, EdgeInput.dispatch, button_1_callback, button_callback,
    send_button_press, initController]

/-- C10: the startup health check swallows every exception, not only network
errors: for every outcome `check_connection` returns normally with the GET
issued; in particular a `KeyboardInterrupt` raised inside its guarded block
is caught by the bare `except:`, the unreachable message is logged, and
`run` proceeds into the idle loop instead of terminating. -/
theorem c10_bare_except_swallows (res : HttpResult) (n : ℕ) :
    (∃ l, check_connection res = (⟨FLASK_APP_URL ++ "/health", 5⟩, Except.ok l)) ∧
    (check_connection (HttpResult.raise PyExn.keyboardInterrupt)).2 =
      Except.ok ["✗ Unable to connect to Flask app",
                 "Verify that the app is running on " ++ FLASK_APP_URL] ∧
    (run (HttpResult.raise PyExn.keyboardInterrupt) n).enteredLoop = true ∧
    (run (HttpResult.raise PyExn.keyboardInterrupt) n).raised = none := by
  exact ⟨check_connection_ok res, rfl, rfl, rfl⟩
